import Mathlib

/-!
# Verification of the `googler_api` orchestration core

A shallow embedding, in Lean 4, of the `googler_api` Python package
(`models.py`, `connection.py`, `client.py`, `url_builder.py`,
`exceptions.py`) together with proofs of the behavioural claims made by
its specification.

Conventions of the embedding:
* Python exceptions become an explicit `PyExc` value (kind, message,
  `__cause__` chain); fallible operations return `Except PyExc α` or an
  `Option PyExc` side channel.
* Mutable objects (`GoogleSearchClient`, `ManagedConnection`) become
  state records; each method becomes a function from state (plus an
  environment describing the outcomes of the external collaborators) to
  an updated state and a result.
* The external collaborators living in the `googler` executable
  (`GoogleUrl`, `GoogleConnection`, `GoogleParser`) are not part of the
  repository sources; where their behaviour decides a claim they are
  modelled from the specification text, and this is flagged in the
  corresponding doc comment.
-/

namespace GooglerApi

/-- The kinds of exception that can travel through the orchestration
core: the public taxonomy from `exceptions.py` (`ConnectionError`,
`SearchError`, `ParseError`, `RateLimitError`), the external engine's
`GoogleConnectionError`, Python's `ValueError`, and a catch-all for any
other `Exception`. -/
inductive ExcKind where
  | connectionError
  | searchError
  | parseError
  | rateLimitError
  | googleConnectionError
  | valueError
  | otherError
deriving DecidableEq, Repr

/-- A Python exception value: its class (kind), its message (`str(e)`),
and its `__cause__` (set by `raise ... from e`). -/
inductive PyExc where
  | mk : ExcKind → String → Option PyExc → PyExc

/-- The exception's class. -/
def PyExc.kind : PyExc → ExcKind
  | .mk k _ _ => k

/-- The exception's message (`str(e)`). -/
def PyExc.msg : PyExc → String
  | .mk _ m _ => m

/-- The exception's `__cause__`. -/
def PyExc.cause : PyExc → Option PyExc
  | .mk _ _ c => c

/-- Python truthiness of an `Optional[str]`: `None` and `""` are falsy. -/
def truthyStr : Option String → Bool
  | none => false
  | some s => s ≠ ""

end GooglerApi

namespace GooglerApi

/-! ## JSON values and `json.dumps` (models.py serialization target) -/

/-- The JSON values produced by `SearchResult.to_dict`: strings,
integers, arrays, and objects (ordered key/value lists, as Python dicts
are insertion-ordered). -/
inductive Json where
  | str : String → Json
  | int : Int → Json
  | arr : List Json → Json
  | obj : List (String × Json) → Json

/-- Lower-case hexadecimal digit, as used by Python's `'\u%04x'`
formatting of control characters. -/
def hexDigit (n : Nat) : Char :=
  if n < 10 then Char.ofNat (48 + n) else Char.ofNat (87 + n)

/-- One character of a JSON string literal as emitted by Python's
`json.dumps(..., ensure_ascii=False)`: `"` and `\` are escaped, the
control characters BS HT LF FF CR get their two-character escapes, the
remaining control characters below U+0020 are written `\u00xy`, and
every other character — in particular every non-ASCII character — is
emitted literally. -/
def escChar (c : Char) : List Char :=
  if c = '"' then ['\\', '"']
  else if c = '\\' then ['\\', '\\']
  else if c = '\n' then ['\\', 'n']
  else if c = '\t' then ['\\', 't']
  else if c = '\r' then ['\\', 'r']
  else if c.toNat = 8 then ['\\', 'b']
  else if c.toNat = 12 then ['\\', 'f']
  else if c.toNat < 32 then ['\\', 'u', '0', '0', hexDigit (c.toNat / 16), hexDigit (c.toNat % 16)]
  else [c]

/-- A JSON string literal: opening quote, escaped characters, closing
quote. -/
def strLit (s : String) : String :=
  ⟨'"' :: (s.data.flatMap escChar ++ ['"'])⟩

/-- `n` spaces, the indentation emitted by `json.dumps(..., indent=n)`. -/
def pad (n : Nat) : String :=
  ⟨List.replicate n ' '⟩

/-- Join a list of strings with a separator (Python `sep.join(xs)`). -/
def joinSep : List String → String → String
  | [], _ => ""
  | [s], _ => s
  | s :: t :: rest, sep => s ++ sep ++ joinSep (t :: rest) sep

/-- Code-point lexicographic order on character lists: Python's string
comparison, which `sorted`/`sort_keys` use. -/
def lexLe : List Char → List Char → Bool
  | [], _ => true
  | _ :: _, [] => false
  | a :: as, b :: bs => if a < b then true else if a = b then lexLe as bs else false

/-- Insert a key/value pair into a key-sorted list of pairs
(comparison on keys only, as `json.dumps(..., sort_keys=True)` sorts). -/
def insertPair (p : String × String) : List (String × String) → List (String × String)
  | [] => [p]
  | q :: l => if lexLe p.1.data q.1.data then p :: q :: l else q :: insertPair p l

/-- Insertion sort of key/value pairs by key: the alphabetical key
order of `json.dumps(..., sort_keys=True)`. -/
def sortPairs : List (String × String) → List (String × String)
  | [] => []
  | p :: l => insertPair p (sortPairs l)

mutual

/-- `json.dumps(value, indent=2, sort_keys=True, ensure_ascii=False)`
restricted to the values this package serializes.  `ind` is the current
indentation level; arrays and objects put every element on its own line
indented two further spaces, object members are rendered key-sorted
with `": "` between key and value, and the item separator is `",\n"`. -/
def dumps : Json → Nat → String
  | .str s, _ => strLit s
  | .int n, _ => toString n
  | .arr [], _ => "[]"
  | .arr (x :: xs), ind =>
      "[\n" ++ joinSep (dumpsList (x :: xs) (ind + 2)) ",\n" ++ "\n" ++ pad ind ++ "]"
  | .obj [], _ => "\x7b\x7d"
  | .obj (kv :: kvs), ind =>
      "\x7b\n" ++
        joinSep ((sortPairs (dumpsPairs (kv :: kvs) (ind + 2))).map
          (fun q => pad (ind + 2) ++ strLit q.1 ++ ": " ++ q.2)) ",\n" ++
        "\n" ++ pad ind ++ "\x7d"

/-- Render each array element at the given indentation. -/
def dumpsList : List Json → Nat → List String
  | [], _ => []
  | x :: xs, ind => (pad ind ++ dumps x ind) :: dumpsList xs ind

/-- Render each object member's value; keys are kept for sorting. -/
def dumpsPairs : List (String × Json) → Nat → List (String × String)
  | [], _ => []
  | kv :: kvs, ind => (kv.1, dumps kv.2 ind) :: dumpsPairs kvs ind

end

/-! ## models.py: SitelinkResult, SearchResult, SearchResponse -/

/-- `models.SitelinkResult`: a frozen dataclass with `title`, `url`,
`abstract`. -/
structure SitelinkResult where
  title : String
  url : String
  abstract : String
deriving DecidableEq, Repr

/-- One entry of `SearchResult.matches`:
`{"phrase": str, "offset": int}`. -/
structure MatchEntry where
  phrase : String
  offset : Int
deriving DecidableEq, Repr

/-- `models.SearchResult`: a frozen dataclass; `metadata` defaults to
`None`, `sitelinks` and `matches` default to empty lists. -/
structure SearchResult where
  title : String
  url : String
  abstract : String
  metadata : Option String
  sitelinks : List SitelinkResult
  matches_ : List MatchEntry
deriving DecidableEq, Repr

/-- `SearchResult.to_dict`: the dict starts with `title`, `url`,
`abstract`; `metadata` is added when truthy (non-`None`, non-empty),
`sitelinks` when the list is non-empty (each sitelink as a
`title`/`url`/`abstract` object), and `matches` when non-empty. -/
def SearchResult.to_dict (r : SearchResult) : List (String × Json) :=
  [("title", Json.str r.title), ("url", Json.str r.url), ("abstract", Json.str r.abstract)]
    ++ (if truthyStr r.metadata then [("metadata", Json.str (r.metadata.getD ""))] else [])
    ++ (if r.sitelinks.isEmpty then [] else
        [("sitelinks", Json.arr (r.sitelinks.map (fun s =>
          Json.obj [("title", Json.str s.title), ("url", Json.str s.url),
                    ("abstract", Json.str s.abstract)])))])
    ++ (if r.matches_.isEmpty then [] else
        [("matches", Json.arr (r.matches_.map (fun m =>
          Json.obj [("phrase", Json.str m.phrase), ("offset", Json.int m.offset)])))])

/-- `models.SearchResponse`: results plus fetch-cycle metadata. -/
structure SearchResponse where
  results : List SearchResult
  query : String
  url : String
  autocorrected : Bool
  showing_results_for : Option String
  filtered : Bool
  page : Int
deriving DecidableEq, Repr

/-- `SearchResponse.to_dicts`: `[r.to_dict() for r in self.results]`. -/
def SearchResponse.to_dicts (resp : SearchResponse) : List (List (String × Json)) :=
  resp.results.map SearchResult.to_dict

/-- `SearchResponse.to_json`:
`json.dumps(self.to_dicts(), indent=2, sort_keys=True, ensure_ascii=False)`. -/
def SearchResponse.to_json (resp : SearchResponse) : String :=
  dumps (Json.arr (resp.to_dicts.map Json.obj)) 0

/-- `SearchResponse.__len__`: `len(self.results)`. -/
def SearchResponse.len (resp : SearchResponse) : Nat :=
  resp.results.length

/-- `SearchResponse.__bool__`: `len(self.results) > 0`. -/
def SearchResponse.bool (resp : SearchResponse) : Bool :=
  decide (resp.results.length > 0)

/-- `SearchResponse.__iter__`: iteration is over `self.results` in
order. -/
def SearchResponse.iterItems (resp : SearchResponse) : List SearchResult :=
  resp.results

/-- `SearchResponse.__getitem__` at a non-negative index:
`self.results[index]` (`none` models the `IndexError` on an
out-of-range index). -/
def SearchResponse.getItem (resp : SearchResponse) (i : Nat) : Option SearchResult :=
  resp.results.get? i

/-! ## models.py: parser-entry normalization -/

/-- A sitelink object as produced by the external parser: each of the
three attributes may be missing (`getattr(sl, attr, "")` supplies `""`
for a missing one). -/
structure RawSitelink where
  title : Option String
  url : Option String
  abstract : Option String

/-- A result entry as produced by the external parser (`googler.Result`).
`title`/`url`/`abstract` may be `None`; `metadata` may be missing or
`None` (both map to `None` through `getattr(result, "metadata", None)`);
the `sitelinks`/`matches` attributes may be missing entirely (`none`
here) or hold a possibly-empty list. -/
structure RawResult where
  title : Option String
  url : Option String
  abstract : Option String
  metadata : Option String
  sitelinks : Option (List RawSitelink)
  matches_ : Option (List MatchEntry)

/-- `models._result_to_search_result`: normalizes a parser entry into a
`SearchResult`.  Missing/`None` `title`/`url`/`abstract` become `""`
(`result.title or ""`); a missing or empty `sitelinks`/`matches`
attribute becomes the empty list; `metadata` is passed through
(`getattr(result, "metadata", None)`). -/
def resultToSearchResult (r : RawResult) : SearchResult :=
  let sitelinks :=
    match r.sitelinks with
    | none => []
    | some sls =>
      if sls.isEmpty then []
      else sls.map (fun sl =>
        SitelinkResult.mk (sl.title.getD "") (sl.url.getD "") (sl.abstract.getD ""))
  let matchesV :=
    match r.matches_ with
    | none => []
    | some ms => if ms.isEmpty then [] else ms
  SearchResult.mk (r.title.getD "") (r.url.getD "") (r.abstract.getD "")
    r.metadata sitelinks matchesV

end GooglerApi

namespace GooglerApi

/-! ## External collaborators modelled from the spec -/

/-- Output of the external result parser (`GoogleParser`): structured
entries plus the autocorrect/filtered indicators. -/
structure ParserOut where
  results : List RawResult
  autocorrected : Bool
  showing_results_for : Option String
  filtered : Bool

/-- `raise ConnectionError(str(e)) from e` applied to a
`GoogleConnectionError`; any other exception is left untouched (the
`except GoogleConnectionError` handlers in `connection.py` catch only
that class). -/
def trGoogleErr (e : PyExc) : PyExc :=
  if e.kind = ExcKind.googleConnectionError then
    PyExc.mk ExcKind.connectionError e.msg (some e)
  else e

/-- Modelled from the spec: the external URL resolver (`GoogleUrl`,
defined in the `googler` executable, which is not under `src/`).
Spec §4.1: the resolved URL carries a host, the vertical flags, and a
zero-based page cursor. -/
structure GUrl where
  hostname : String
  news : Bool
  videos : Bool
  page : Int
deriving DecidableEq, Repr

/-- Modelled from the spec: `GoogleUrl.next_page` — "advance one page"
on an already-resolved URL. -/
def GUrl.next_page (u : GUrl) : GUrl :=
  GUrl.mk u.hostname u.news u.videos (u.page + 1)

/-- Modelled from the spec: `GoogleUrl.prev_page` — "retreat one page";
"retreating below page 0 fails with an out-of-range condition"
(a Python `ValueError`, which `client.prev_page` catches). -/
def GUrl.prev_page (u : GUrl) : Except PyExc GUrl :=
  if u.page - 1 < 0 then
    Except.error (PyExc.mk ExcKind.valueError "Nonnegative page number expected" none)
  else
    Except.ok (GUrl.mk u.hostname u.news u.videos (u.page - 1))

/-- Modelled from the spec: `GoogleUrl.full()`, the fully resolved
request URL (host-qualified). Only its host matters to any claim. -/
def GUrl.full (u : GUrl) : String :=
  "https://" ++ u.hostname ++ "/search"

/-- Modelled from the spec: `GoogleUrl.relative()`, the path+query part
handed to the fetch engine. No claim depends on its exact shape. -/
def GUrl.relative (_u : GUrl) : String :=
  "/search"

/-- Modelled from the spec: `url_builder.build_url`, which constructs
the external `GoogleUrl` from the session configuration and the search
arguments.  Spec §4.1: host = `www.google.<tld>` when countryTLD is
set, else the fixed default host; the page cursor is
startOffset / resultCount when resultCount > 0, else 0. -/
def build_url (tld : Option String) (num start : Int) (news videos : Bool) : GUrl :=
  GUrl.mk
    (if truthyStr tld then "www.google." ++ tld.getD "" else "www.google.com")
    news videos
    (if num > 0 then Int.fdiv start num else 0)

/-! ## connection.py: ManagedConnection -/

/-- The address-family preference computed in
`ManagedConnection.__init__` (`AF_INET`, `AF_INET6`, or `0`). -/
inductive AddrFam where
  | inet
  | inet6
  | unspec
deriving DecidableEq, Repr

/-- The mutable state of a `ManagedConnection`: the target host, the
construction-time configuration, and the underlying `GoogleConnection`
(`none` when disconnected). -/
structure MCState where
  host : String
  proxy : Option String
  timeout : Int
  notweak : Bool
  address_family : AddrFam
  conn : Option Unit
deriving DecidableEq, Repr

/-- `ManagedConnection.__init__`: stores configuration, resolves the
address family, starts disconnected. -/
def MCState.init (host : String) (proxy : Option String) (timeout : Int)
    (ipv4_only ipv6_only notweak : Bool) : MCState :=
  MCState.mk host proxy timeout notweak
    (if ipv4_only then AddrFam.inet else if ipv6_only then AddrFam.inet6 else AddrFam.unspec)
    none

/-- `ManagedConnection.is_connected`. -/
def MCState.is_connected (mc : MCState) : Bool :=
  mc.conn.isSome

/-- `ManagedConnection.connect`: a no-op when a connection exists;
otherwise constructs the underlying `GoogleConnection` (outcome
supplied by the environment), translating `GoogleConnectionError` to
`ConnectionError` and letting any other failure through raw.  On
failure `_conn` stays `None`. -/
def MCState.connect (mc : MCState) (outcome : Except PyExc Unit) : MCState × Option PyExc :=
  match mc.conn with
  | some _ => (mc, none)
  | none =>
    match outcome with
    | Except.ok _ => (MCState.mk mc.host mc.proxy mc.timeout mc.notweak mc.address_family (some ()), none)
    | Except.error e => (mc, some (trGoogleErr e))

/-- `ManagedConnection.fetch_page`: connects first when disconnected
(propagating a connect failure), then runs the underlying fetch,
translating `GoogleConnectionError` to `ConnectionError`. -/
def MCState.fetch_page (mc : MCState) (connectOutcome : Except PyExc Unit)
    (fetchOutcome : Except PyExc String) : MCState × Except PyExc String :=
  let tr : Except PyExc String → Except PyExc String := fun r =>
    match r with
    | Except.ok h => Except.ok h
    | Except.error e => Except.error (trGoogleErr e)
  match mc.conn with
  | some _ => (mc, tr fetchOutcome)
  | none =>
    match MCState.connect mc connectOutcome with
    | (mc', none) => (mc', tr fetchOutcome)
    | (mc', some e) => (mc', Except.error e)

/-- `ManagedConnection.reconnect`: when a connection is active, runs
`new_connection` on it (outcome from the environment) and then, if the
supplied host is truthy, records it as the current host; when
disconnected the whole body is skipped.  `GoogleConnectionError` is
translated to `ConnectionError`. -/
def MCState.reconnect (mc : MCState) (host : Option String)
    (newConnOutcome : Except PyExc Unit) : MCState × Option PyExc :=
  match mc.conn with
  | none => (mc, none)
  | some _ =>
    match newConnOutcome with
    | Except.ok _ =>
      (if truthyStr host then
        MCState.mk (host.getD mc.host) mc.proxy mc.timeout mc.notweak mc.address_family mc.conn
       else mc, none)
    | Except.error e => (mc, some (trGoogleErr e))

/-- `ManagedConnection.close`: drops the underlying connection; a no-op
when already closed. -/
def MCState.close (mc : MCState) : MCState :=
  MCState.mk mc.host mc.proxy mc.timeout mc.notweak mc.address_family none

end GooglerApi

namespace GooglerApi

/-! ## client.py: GoogleSearchClient -/

/-- The immutable session configuration stored by
`GoogleSearchClient.__init__`. -/
structure ClientConfig where
  tld : Option String
  lang : Option String
  geoloc : Option String
  proxy : Option String
  timeout : Int
  ipv4_only : Bool
  ipv6_only : Bool
  notweak : Bool
deriving DecidableEq, Repr

/-- The keyword arguments of `GoogleSearchClient.search`.  (The client
stores them — minus `start` — in `_last_kwargs`; nothing ever reads
that attribute, so the model records the whole bundle.) -/
structure SearchArgs where
  query : String
  num : Int
  start : Int
  exact : Bool
  duration : Option String
  date_from : Option String
  date_to : Option String
  sites : Option (List String)
  exclude : Option (List String)
  unfilter : Bool
  news : Bool
  videos : Bool
deriving DecidableEq, Repr

/-- The mutable state of a `GoogleSearchClient`. -/
structure ClientState where
  cfg : ClientConfig
  conn : Option MCState
  google_url : Option GUrl
  current_page : Int
  last_query : Option String
  last_kwargs : Option SearchArgs
deriving DecidableEq, Repr

/-- `GoogleSearchClient.__init__`: stores the configuration; `_conn`
and `_google_url` start as `None`, `_current_page` as 0. -/
def initState (cfg : ClientConfig) : ClientState :=
  ClientState.mk cfg none none 0 none none

/-- The outcomes of the external collaborators during one
fetch/parse/connect cycle: constructing a `GoogleConnection`, calling
`new_connection` on it, fetching a page, and parsing HTML. -/
structure Env where
  connectOutcome : Except PyExc Unit
  newConnOutcome : Except PyExc Unit
  fetchOutcome : Except PyExc String
  parseOutcome : String → Except PyExc ParserOut

/-- Observable construction/reconnection events, used to state that the
session reconnects the existing manager instead of building a new
one. -/
inductive Event where
  | newManager : String → Event
  | reconnectEv : Option String → Event
deriving DecidableEq, Repr

/-- The hostname computed in `GoogleSearchClient.connect`:
`www.google.<tld>` when `_tld` is truthy, else `www.google.com`. -/
def hostnameFor (cfg : ClientConfig) : String :=
  if truthyStr cfg.tld then "www.google." ++ cfg.tld.getD "" else "www.google.com"

/-- The construction path of `GoogleSearchClient.connect`: build a
fresh `ManagedConnection` from the session configuration (recorded as
a `newManager` event), assign it to `_conn`, and connect it. -/
def mkNewManager (st : ClientState) (env : Env) : ClientState × List Event × Option PyExc :=
  match MCState.connect
      (MCState.init (hostnameFor st.cfg) st.cfg.proxy st.cfg.timeout
        st.cfg.ipv4_only st.cfg.ipv6_only st.cfg.notweak)
      env.connectOutcome with
  | (mc1, err) =>
    (ClientState.mk st.cfg (some mc1) st.google_url st.current_page st.last_query st.last_kwargs,
     [Event.newManager (hostnameFor st.cfg)], err)

/-- `GoogleSearchClient.connect`: a no-op when a connected manager
exists; otherwise runs the construction path. -/
def clientConnect (st : ClientState) (env : Env) : ClientState × List Event × Option PyExc :=
  match st.conn with
  | some mc => if mc.is_connected then (st, [], none) else mkNewManager st env
  | none => mkNewManager st env

/-- `GoogleSearchClient.close`: closes and drops `_conn`; a no-op when
`_conn` is already `None`. -/
def clientClose (st : ClientState) : ClientState :=
  match st.conn with
  | none => st
  | some _ =>
    ClientState.mk st.cfg none st.google_url st.current_page st.last_query st.last_kwargs

/-- `GoogleSearchClient._fetch_and_parse`: fetches the current URL
(wrapping any non-`ConnectionError` failure as `SearchError` with the
original as cause, re-raising `ConnectionError` unchanged), parses the
HTML (wrapping any failure as `ParseError` with the original as
cause), normalizes the entries, and builds the `SearchResponse`.  When
`_conn` or `_google_url` is `None` the attribute access inside the
fetch `try` block raises, so the failure surfaces as `SearchError`. -/
def fetchAndParse (st : ClientState) (env : Env) : ClientState × Except PyExc SearchResponse :=
  match st.conn, st.google_url with
  | some mc, some u =>
    match MCState.fetch_page mc env.connectOutcome env.fetchOutcome with
    | (mc1, fres) =>
      match fres with
      | Except.error e =>
        if e.kind = ExcKind.connectionError then
          (ClientState.mk st.cfg (some mc1) st.google_url st.current_page
             st.last_query st.last_kwargs, Except.error e)
        else
          (ClientState.mk st.cfg (some mc1) st.google_url st.current_page
             st.last_query st.last_kwargs,
           Except.error
             (PyExc.mk ExcKind.searchError ("Search request failed: " ++ e.msg) (some e)))
      | Except.ok html =>
        match env.parseOutcome html with
        | Except.error e =>
          (ClientState.mk st.cfg (some mc1) st.google_url st.current_page
             st.last_query st.last_kwargs,
           Except.error
             (PyExc.mk ExcKind.parseError ("Failed to parse search results: " ++ e.msg) (some e)))
        | Except.ok pout =>
          (ClientState.mk st.cfg (some mc1) st.google_url st.current_page
             st.last_query st.last_kwargs,
           Except.ok
             (SearchResponse.mk (pout.results.map resultToSearchResult)
               (st.last_query.getD "") u.full pout.autocorrected
               pout.showing_results_for pout.filtered st.current_page))
  | _, _ =>
    (st, Except.error
      (PyExc.mk ExcKind.searchError
        ("Search request failed: " ++ "AttributeError: NoneType")
        (some (PyExc.mk ExcKind.otherError "AttributeError: NoneType" none))))

/-- The error raised by `next_page`/`prev_page` when `_google_url` is
`None`. -/
def noPrevExc : PyExc :=
  PyExc.mk ExcKind.searchError
    "No previous search to paginate from. Call search() first." none

/-- The state updates `search` performs before fetching: it records
`_last_query`, `_last_kwargs`, `_current_page`
(`start // num if num > 0 else 0`), and the freshly built
`_google_url`. -/
def recordSearch (st : ClientState) (a : SearchArgs) : ClientState :=
  ClientState.mk st.cfg st.conn
    (some (build_url st.cfg.tld a.num a.start a.news a.videos))
    (if a.num > 0 then Int.fdiv a.start a.num else 0)
    (some a.query) (some a)

/-- Replace the client's connection manager state (the in-place
mutation of `self._conn`). -/
def setConn (st : ClientState) (mc : MCState) : ClientState :=
  ClientState.mk st.cfg (some mc) st.google_url st.current_page
    st.last_query st.last_kwargs

/-- `GoogleSearchClient.search`: connects, records
`_last_query`/`_last_kwargs`/`_current_page`, builds `_google_url`,
reconnects the existing manager when the resolved host differs from the
connected host (recorded as a `reconnectEv` event), and runs
`_fetch_and_parse`. -/
def search (st : ClientState) (a : SearchArgs) (env : Env) :
    ClientState × List Event × Except PyExc SearchResponse :=
  match clientConnect st env with
  | (st1, evs, some e) => (st1, evs, Except.error e)
  | (st1, evs, none) =>
    match st1.conn with
    | some mc =>
      if mc.host ≠ (build_url st1.cfg.tld a.num a.start a.news a.videos).hostname then
        match MCState.reconnect mc
            (some (build_url st1.cfg.tld a.num a.start a.news a.videos).hostname)
            env.newConnOutcome with
        | (mc', some e) =>
          (setConn (recordSearch st1 a) mc',
           evs ++ [Event.reconnectEv
             (some (build_url st1.cfg.tld a.num a.start a.news a.videos).hostname)],
           Except.error e)
        | (mc', none) =>
          match fetchAndParse (setConn (recordSearch st1 a) mc') env with
          | (st5, res) =>
            (st5,
             evs ++ [Event.reconnectEv
               (some (build_url st1.cfg.tld a.num a.start a.news a.videos).hostname)],
             res)
      else
        match fetchAndParse (recordSearch st1 a) env with
        | (st5, res) => (st5, evs, res)
    | none =>
      (recordSearch st1 a, evs,
       Except.error (PyExc.mk ExcKind.otherError "AttributeError: NoneType" none))

/-- `GoogleSearchClient.next_page`: fails with `SearchError` when no
previous search exists; otherwise advances the stored URL one page,
increments `_current_page`, and re-runs the fetch-and-parse cycle. -/
def next_page (st : ClientState) (env : Env) : ClientState × Except PyExc SearchResponse :=
  match st.google_url with
  | none => (st, Except.error noPrevExc)
  | some u =>
    fetchAndParse
      (ClientState.mk st.cfg st.conn (some u.next_page) (st.current_page + 1)
        st.last_query st.last_kwargs) env

/-- `GoogleSearchClient.prev_page`: fails with `SearchError` when no
previous search exists; translates the resolver's `ValueError` (already
at the first page) into `SearchError` with the `ValueError` as cause;
otherwise decrements `_current_page` and re-runs the cycle. -/
def prev_page (st : ClientState) (env : Env) : ClientState × Except PyExc SearchResponse :=
  match st.google_url with
  | none => (st, Except.error noPrevExc)
  | some u =>
    match u.prev_page with
    | Except.error e =>
      (st, Except.error (PyExc.mk ExcKind.searchError "Already at the first page." (some e)))
    | Except.ok u' =>
      fetchAndParse
        (ClientState.mk st.cfg st.conn (some u') (st.current_page - 1)
          st.last_query st.last_kwargs) env

/-- `GoogleSearchClient.search_json`: runs `search` and serializes the
response. -/
def search_json (st : ClientState) (a : SearchArgs) (env : Env) :
    ClientState × List Event × Except PyExc String :=
  match search st a env with
  | (st1, evs, Except.ok resp) => (st1, evs, Except.ok resp.to_json)
  | (st1, evs, Except.error e) => (st1, evs, Except.error e)

/-- `GoogleSearchClient.__enter__`: connects and returns the client. -/
def clientEnter (st : ClientState) (env : Env) : ClientState × List Event × Option PyExc :=
  clientConnect st env

/-- `GoogleSearchClient.__exit__`: closes unconditionally and returns
`False` (so an in-flight exception is never suppressed). -/
def clientExit (st : ClientState) : ClientState × Bool :=
  (clientClose st, false)

/-- The `with GoogleSearchClient(...) as client:` statement: `__enter__`
connects (its failure propagates and skips `__exit__`, as in Python);
the body runs; `__exit__` always runs afterwards, and an in-flight
body exception is suppressed only if `__exit__` returned `True`. -/
def withClient {α : Type} (cfg : ClientConfig) (env : Env)
    (body : ClientState → ClientState × Except PyExc α) :
    ClientState × Except PyExc α :=
  match clientEnter (initState cfg) env with
  | (st1, _, some e) => (st1, Except.error e)
  | (st1, _, none) =>
    match body st1 with
    | (st2, res) =>
      match clientExit st2 with
      | (st3, suppress) =>
        (st3,
          match res, suppress with
          | Except.error _, true => Except.error (PyExc.mk ExcKind.otherError "suppressed" none)
          | r, _ => r)

/-- The client states reachable through the public operations. -/
inductive Reachable : ClientState → Prop where
  | init (cfg : ClientConfig) : Reachable (initState cfg)
  | connectStep (st : ClientState) (env : Env) :
      Reachable st → Reachable (clientConnect st env).1
  | closeStep (st : ClientState) :
      Reachable st → Reachable (clientClose st)
  | searchStep (st : ClientState) (a : SearchArgs) (env : Env) :
      Reachable st → Reachable (search st a env).1
  | nextStep (st : ClientState) (env : Env) :
      Reachable st → Reachable (next_page st env).1
  | prevStep (st : ClientState) (env : Env) :
      Reachable st → Reachable (prev_page st env).1

end GooglerApi


namespace GooglerApi

/-! ## A JSON reader for the emitted fragment (models `json.loads`) -/

/-- Skip JSON insignificant whitespace (space, LF, TAB, CR). -/
def skipWs : List Char → List Char
  | [] => []
  | c :: cs =>
    if c = ' ' ∨ c = '\n' ∨ c = '\t' ∨ c = '\r' then skipWs cs else c :: cs

/-- Value of a hexadecimal digit, if any. -/
def hexVal (c : Char) : Option Nat :=
  if '0' ≤ c ∧ c ≤ '9' then some (c.toNat - 48)
  else if 'a' ≤ c ∧ c ≤ 'f' then some (c.toNat - 87)
  else if 'A' ≤ c ∧ c ≤ 'F' then some (c.toNat - 55)
  else none

/-- Read the remainder of a JSON string literal (the opening quote
already consumed), handling the standard escapes, until the closing
quote; returns the decoded string and the unread input. -/
def pStrAux : List Char → List Char → Option (String × List Char)
  | _acc, [] => none
  | acc, c :: rest =>
    if c = '"' then some (String.mk acc.reverse, rest)
    else if c = '\\' then
      match rest with
      | [] => none
      | e :: rest2 =>
        if e = '"' then pStrAux ('"' :: acc) rest2
        else if e = '\\' then pStrAux ('\\' :: acc) rest2
        else if e = '/' then pStrAux ('/' :: acc) rest2
        else if e = 'n' then pStrAux ('\n' :: acc) rest2
        else if e = 't' then pStrAux ('\t' :: acc) rest2
        else if e = 'r' then pStrAux ('\r' :: acc) rest2
        else if e = 'b' then pStrAux (Char.ofNat 8 :: acc) rest2
        else if e = 'f' then pStrAux (Char.ofNat 12 :: acc) rest2
        else if e = 'u' then
          match rest2 with
          | d1 :: d2 :: d3 :: d4 :: rest3 =>
            match hexVal d1, hexVal d2, hexVal d3, hexVal d4 with
            | some a, some b, some c2, some d =>
              pStrAux (Char.ofNat (((a * 16 + b) * 16 + c2) * 16 + d) :: acc) rest3
            | _, _, _, _ => none
          | _ => none
        else none
    else pStrAux (c :: acc) rest

/-- Read one JSON string literal (leading whitespace allowed). -/
def pString (cs : List Char) : Option (String × List Char) :=
  match skipWs cs with
  | c :: rest => if c = '"' then pStrAux [] rest else none
  | [] => none

/-- Read the members of a JSON object with string values — the shape
`"key": "value"` separated by `,` and terminated by the closing brace —
starting at the first key.  The fuel bounds the number of members. -/
def pMembers : Nat → List Char → Option (List (String × String) × List Char)
  | 0, _ => none
  | fuel + 1, cs =>
    match pString cs with
    | none => none
    | some (k, rest1) =>
      match skipWs rest1 with
      | c :: rest2 =>
        if c = ':' then
          match pString rest2 with
          | none => none
          | some (v, rest3) =>
            match skipWs rest3 with
            | c2 :: rest4 =>
              if c2 = ',' then
                match pMembers fuel rest4 with
                | none => none
                | some (kvs, rest5) => some ((k, v) :: kvs, rest5)
              else if c2 = Char.ofNat 125 then some ([(k, v)], rest4)
              else none
            | [] => none
        else none
      | [] => none

/-- Read one JSON object whose values are strings. -/
def pObj (fuel : Nat) (cs : List Char) : Option (List (String × String) × List Char) :=
  match skipWs cs with
  | c :: rest =>
    if c = Char.ofNat 123 then
      match skipWs rest with
      | c2 :: rest2 =>
        if c2 = Char.ofNat 125 then some ([], rest2)
        else pMembers fuel (c2 :: rest2)
      | [] => none
    else none
  | [] => none

/-- Read a non-empty `,`-separated list of objects terminated by the
closing bracket.  The fuel bounds the number of objects. -/
def pObjs : Nat → List Char → Option (List (List (String × String)) × List Char)
  | 0, _ => none
  | fuel + 1, cs =>
    match pObj fuel cs with
    | none => none
    | some (obj, rest1) =>
      match skipWs rest1 with
      | c :: rest2 =>
        if c = ',' then
          match pObjs fuel rest2 with
          | none => none
          | some (objs, rest3) => some (obj :: objs, rest3)
        else if c = ']' then some ([obj], rest2)
        else none
      | [] => none

/-- Parse a JSON array of flat string-valued objects — the grammar of
`search_json` output for responses without optional fields — requiring
the whole input to be consumed (as `json.loads` does).  The fuel given
to the loops is the input length plus one, which the round-trip proof
shows is always sufficient for text this serializer produced. -/
def parseResults (s : String) : Option (List (List (String × String))) :=
  match skipWs s.data with
  | c :: rest =>
    if c = '[' then
      match skipWs rest with
      | c2 :: rest2 =>
        if c2 = ']' then (if skipWs rest2 = [] then some [] else none)
        else
          match pObjs (s.data.length + 1) rest with
          | some (objs, rest3) => if skipWs rest3 = [] then some objs else none
          | none => none
      | [] => none
    else none
  | [] => none

/-- The character-level form of one serialized object member,
`"key": "value"`. -/
def memberData (k v : String) : List Char :=
  (strLit k).data ++ ':' :: ' ' :: (strLit v).data

/-- The expected serialized form of one result carrying no optional
fields: a two-space-indented object whose members appear in
alphabetical key order (`abstract`, `title`, `url`). -/
def renderNoOpt (r : SearchResult) : String :=
  pad 2 ++ ("\x7b\n" ++
    joinSep [pad 4 ++ strLit "abstract" ++ ": " ++ strLit r.abstract,
             pad 4 ++ strLit "title" ++ ": " ++ strLit r.title,
             pad 4 ++ strLit "url" ++ ": " ++ strLit r.url] ",\n" ++
    "\n" ++ pad 2 ++ "\x7d")

/-- The expected `search_json` text for a list of results carrying no
optional fields. -/
def expectedJson (rs : List SearchResult) : String :=
  match rs with
  | [] => "[]"
  | _ :: _ =>
    "[\n" ++ joinSep (rs.map renderNoOpt) ",\n" ++ "\n" ++ pad 0 ++ "]"

end GooglerApi

namespace GooglerApi

/-! ## Concrete sample values used to exercise the theorems -/

/-- A default session configuration (all options at their defaults). -/
def sampleCfg : ClientConfig :=
  ClientConfig.mk none none none none 45 false false false

/-- A configuration with `tld="in"`. -/
def sampleCfgIn : ClientConfig :=
  ClientConfig.mk (some "in") none none none 45 false false false

/-- An environment in which every external call succeeds and the
parser returns no results. -/
def sampleEnv : Env :=
  Env.mk (Except.ok ()) (Except.ok ()) (Except.ok "<html></html>")
    (fun _ => Except.ok (ParserOut.mk [] false none false))

/-- An environment whose underlying fetch fails with a generic
(non-connection) exception. -/
def sampleEnvFetchFail : Env :=
  Env.mk (Except.ok ()) (Except.ok ())
    (Except.error (PyExc.mk ExcKind.otherError "boom" none))
    (fun _ => Except.ok (ParserOut.mk [] false none false))

/-- A connected manager pointing at the default host. -/
def sampleMC : MCState :=
  MCState.mk "www.google.com" none 45 false AddrFam.unspec (some ())

/-- A client state connected to the default host with a stored URL. -/
def sampleStConnected : ClientState :=
  ClientState.mk sampleCfg (some sampleMC) (some (build_url none 10 0 false false)) 0
    (some "python") none

/-- A connected client whose configured TLD would resolve a different
host than the one currently connected. -/
def sampleStMismatch : ClientState :=
  ClientState.mk sampleCfgIn (some sampleMC) none 0 none none

/-- Default `search` arguments: `num=10`, `start=0`, web vertical. -/
def sampleArgs : SearchArgs :=
  SearchArgs.mk "python" 10 0 false none none none none none false false false

end GooglerApi

namespace GooglerApi

/-! ## Frame lemmas and the page-synchronisation invariant -/

theorem fetchAndParse_fst_google_url (st : ClientState) (env : Env) :
    (fetchAndParse st env).1.google_url = st.google_url := by
  unfold fetchAndParse
  (repeat' split) <;> rfl

theorem fetchAndParse_fst_current_page (st : ClientState) (env : Env) :
    (fetchAndParse st env).1.current_page = st.current_page := by
  unfold fetchAndParse
  (repeat' split) <;> rfl

theorem fetchAndParse_fst_last_query (st : ClientState) (env : Env) :
    (fetchAndParse st env).1.last_query = st.last_query := by
  unfold fetchAndParse
  (repeat' split) <;> rfl

theorem clientConnect_fst_google_url (st : ClientState) (env : Env) :
    (clientConnect st env).1.google_url = st.google_url := by
  unfold clientConnect mkNewManager
  (repeat' split) <;> rfl

theorem clientConnect_fst_current_page (st : ClientState) (env : Env) :
    (clientConnect st env).1.current_page = st.current_page := by
  unfold clientConnect mkNewManager
  (repeat' split) <;> rfl

theorem clientConnect_fst_cfg (st : ClientState) (env : Env) :
    (clientConnect st env).1.cfg = st.cfg := by
  unfold clientConnect mkNewManager
  (repeat' split) <;> rfl


theorem clientClose_google_url (st : ClientState) :
    (clientClose st).google_url = st.google_url := by
  unfold clientClose; cases st.conn <;> rfl

theorem clientClose_current_page (st : ClientState) :
    (clientClose st).current_page = st.current_page := by
  unfold clientClose; cases st.conn <;> rfl

/-- After `search`, the session state is either the post-connect state
(connect failed) or carries the freshly built URL together with the
freshly computed page index. -/
theorem search_fst_cases (st : ClientState) (a : SearchArgs) (env : Env) :
    (search st a env).1 = (clientConnect st env).1 ∨
    ((search st a env).1.google_url =
        some (build_url (clientConnect st env).1.cfg.tld a.num a.start a.news a.videos) ∧
     (search st a env).1.current_page = (if a.num > 0 then Int.fdiv a.start a.num else 0)) := by
  unfold search
  cases hcc : clientConnect st env with
  | mk st1 rest =>
  cases rest with
  | mk evs err =>
  cases err with
  | some e => left; rfl
  | none =>
    right
    cases hc1 : st1.conn with
    | none => simp [hc1, recordSearch, build_url]
    | some mc =>
      simp only [hc1]
      split
      · cases hr2 : MCState.reconnect mc
            (some (build_url st1.cfg.tld a.num a.start a.news a.videos).hostname)
            env.newConnOutcome with
        | mk mc' rerr =>
          cases rerr with
          | some e => simp [setConn, recordSearch, build_url]
          | none =>
            cases hf : fetchAndParse (setConn (recordSearch st1 a) mc') env with
            | mk st5 res =>
              have h1 := fetchAndParse_fst_google_url (setConn (recordSearch st1 a) mc') env
              have h2 := fetchAndParse_fst_current_page (setConn (recordSearch st1 a) mc') env
              rw [hf] at h1 h2
              simp [setConn, recordSearch, build_url] at h1 h2
              dsimp only
              simp [hf, h1, h2, build_url]
      · cases hf : fetchAndParse (recordSearch st1 a) env with
        | mk st5 res =>
          have h1 := fetchAndParse_fst_google_url (recordSearch st1 a) env
          have h2 := fetchAndParse_fst_current_page (recordSearch st1 a) env
          rw [hf] at h1 h2
          simp [recordSearch, build_url] at h1 h2
          dsimp only
          simp [hf, h1, h2, build_url]

/-- After `next_page`, the state is unchanged (no previous search) or
carries the advanced URL and incremented page counter. -/
theorem next_page_fst_cases (st : ClientState) (env : Env) :
    (next_page st env).1 = st ∨
    ∃ u0 : GUrl, st.google_url = some u0 ∧
      (next_page st env).1.google_url = some u0.next_page ∧
      (next_page st env).1.current_page = st.current_page + 1 := by
  unfold next_page
  cases hg : st.google_url with
  | none => left; rfl
  | some u0 =>
    right
    refine ⟨u0, rfl, ?_, ?_⟩
    · rw [fetchAndParse_fst_google_url]
    · rw [fetchAndParse_fst_current_page]

/-- After `prev_page`, the state is unchanged (no previous search, or
the resolver refused to retreat) or carries the retreated URL and the
decremented page counter; retreat succeeds only from a positive page. -/
theorem prev_page_fst_cases (st : ClientState) (env : Env) :
    (prev_page st env).1 = st ∨
    ∃ u0 : GUrl, st.google_url = some u0 ∧ 0 < u0.page ∧
      (prev_page st env).1.google_url =
        some (GUrl.mk u0.hostname u0.news u0.videos (u0.page - 1)) ∧
      (prev_page st env).1.current_page = st.current_page - 1 := by
  unfold prev_page
  cases hg : st.google_url with
  | none => left; rfl
  | some u0 =>
    dsimp only
    cases hp : u0.prev_page with
    | error e => left; rfl
    | ok u' =>
      right
      unfold GUrl.prev_page at hp
      split at hp
      · exact absurd hp (by simp)
      · rename_i hnlt
        refine ⟨u0, rfl, by omega, ?_, ?_⟩
        · rw [fetchAndParse_fst_google_url]
          injection hp with hp
          rw [hp]
        · rw [fetchAndParse_fst_current_page]

/-- Invariant: the page cursor carried by the stored URL always equals
the session's `_current_page`. -/
theorem reachable_sync {st : ClientState} (h : Reachable st) :
    ∀ u : GUrl, st.google_url = some u → u.page = st.current_page := by
  induction h with
  | init cfg => intro u hu; simp [initState] at hu
  | connectStep st env hr ih =>
    intro u hu
    rw [clientConnect_fst_google_url] at hu
    rw [clientConnect_fst_current_page]
    exact ih u hu
  | closeStep st hr ih =>
    intro u hu
    rw [clientClose_google_url] at hu
    rw [clientClose_current_page]
    exact ih u hu
  | searchStep st a env hr ih =>
    intro u hu
    rcases search_fst_cases st a env with heq | ⟨hg, hp⟩
    · rw [heq] at hu ⊢
      rw [clientConnect_fst_google_url] at hu
      rw [clientConnect_fst_current_page]
      exact ih u hu
    · rw [hg] at hu
      injection hu with hu
      subst hu
      rw [hp]
      simp [build_url]
  | nextStep st env hr ih =>
    intro u hu
    rcases next_page_fst_cases st env with heq | ⟨u0, hg, h1, h2⟩
    · rw [heq] at hu ⊢
      exact ih u hu
    · rw [h1] at hu
      injection hu with hu
      subst hu
      rw [h2]
      simp [GUrl.next_page, ih u0 hg]
  | prevStep st env hr ih =>
    intro u hu
    rcases prev_page_fst_cases st env with heq | ⟨u0, hg, hpos, h1, h2⟩
    · rw [heq] at hu ⊢
      exact ih u hu
    · rw [h1] at hu
      injection hu with hu
      subst hu
      rw [h2]
      have hs := ih u0 hg
      simp
      omega

end GooglerApi

namespace GooglerApi

/-! ## Further helper lemmas -/

theorem clientConnect_connected (st : ClientState) (env : Env) (mc : MCState)
    (h1 : st.conn = some mc) (h2 : mc.is_connected = true) :
    clientConnect st env = (st, [], none) := by
  unfold clientConnect
  rw [h1]
  dsimp only
  simp [h2]

theorem clientConnect_ok_connected (st : ClientState) (env : Env)
    (h : (clientConnect st env).2.2 = none) :
    ∃ mc : MCState, (clientConnect st env).1.conn = some mc ∧ mc.is_connected = true := by
  unfold clientConnect mkNewManager at h ⊢
  cases hc : st.conn with
  | some mc =>
    rw [hc] at h
    dsimp only at h ⊢
    by_cases hic : mc.is_connected = true
    · simp only [hic, if_true, ite_true] at h ⊢
      exact ⟨mc, hc, hic⟩
    · simp only [hic, if_false, ite_false] at h ⊢
      unfold MCState.connect at h ⊢
      dsimp only [MCState.init] at h ⊢
      cases ho : env.connectOutcome with
      | ok v =>
        rw [ho] at h
        exact ⟨_, rfl, rfl⟩
      | error e =>
        rw [ho] at h
        simp at h
  | none =>
    rw [hc] at h
    dsimp only at h ⊢
    unfold MCState.connect at h ⊢
    dsimp only [MCState.init] at h ⊢
    cases ho : env.connectOutcome with
    | ok v =>
      rw [ho] at h
      exact ⟨_, rfl, rfl⟩
    | error e =>
      rw [ho] at h
      simp at h

theorem clientClose_conn (st : ClientState) : (clientClose st).conn = none := by
  unfold clientClose
  cases hc : st.conn with
  | none => rw [hc]
  | some mc => rfl

/-- When the connect step succeeds, `search` leaves behind the recorded
query, URL and page index, whatever happens afterwards. -/
theorem search_fst_of_connect_ok (st : ClientState) (a : SearchArgs) (env : Env)
    (h : (clientConnect st env).2.2 = none) :
    (search st a env).1.google_url =
      some (build_url (clientConnect st env).1.cfg.tld a.num a.start a.news a.videos) ∧
    (search st a env).1.current_page = (if a.num > 0 then Int.fdiv a.start a.num else 0) ∧
    (search st a env).1.last_query = some a.query := by
  unfold search
  cases hcc : clientConnect st env with
  | mk st1 rest =>
  cases rest with
  | mk evs err =>
  cases err with
  | some e => rw [hcc] at h; cases h
  | none =>
    cases hc1 : st1.conn with
    | none => simp [hc1, recordSearch, build_url]
    | some mc =>
      simp only [hc1]
      split
      · cases hr2 : MCState.reconnect mc
            (some (build_url st1.cfg.tld a.num a.start a.news a.videos).hostname)
            env.newConnOutcome with
        | mk mc' rerr =>
          cases rerr with
          | some e => simp [setConn, recordSearch, build_url]
          | none =>
            cases hf : fetchAndParse (setConn (recordSearch st1 a) mc') env with
            | mk st5 res =>
              have h1 := fetchAndParse_fst_google_url (setConn (recordSearch st1 a) mc') env
              have h2 := fetchAndParse_fst_current_page (setConn (recordSearch st1 a) mc') env
              have h3 := fetchAndParse_fst_last_query (setConn (recordSearch st1 a) mc') env
              rw [hf] at h1 h2 h3
              simp [setConn, recordSearch, build_url] at h1 h2 h3
              dsimp only
              simp [hf, h1, h2, h3, build_url]
      · cases hf : fetchAndParse (recordSearch st1 a) env with
        | mk st5 res =>
          have h1 := fetchAndParse_fst_google_url (recordSearch st1 a) env
          have h2 := fetchAndParse_fst_current_page (recordSearch st1 a) env
          have h3 := fetchAndParse_fst_last_query (recordSearch st1 a) env
          rw [hf] at h1 h2 h3
          simp [recordSearch, build_url] at h1 h2 h3
          dsimp only
          simp [hf, h1, h2, h3, build_url]

/-- A successful fetch-and-parse cycle reports the page index stored in
the session at fetch time. -/
theorem fetchAndParse_ok_page (st : ClientState) (env : Env) (resp : SearchResponse)
    (h : (fetchAndParse st env).2 = Except.ok resp) :
    resp.page = st.current_page := by
  unfold fetchAndParse at h
  split at h
  · split at h
    split at h
    · split at h <;> cases h
    · split at h
      · cases h
      · injection h with h
        subst h
        rfl
  · cases h

/-- Any successful `search` reports `start // num` (or 0 when
`num = 0`) as the response's page. -/
theorem search_ok_page (st : ClientState) (a : SearchArgs) (env : Env) (resp : SearchResponse)
    (h : (search st a env).2.2 = Except.ok resp) :
    resp.page = (if a.num > 0 then Int.fdiv a.start a.num else 0) := by
  unfold search at h
  cases hcc : clientConnect st env with
  | mk st1 rest =>
  cases rest with
  | mk evs err =>
  rw [hcc] at h
  cases err with
  | some e => cases h
  | none =>
    dsimp only at h
    cases hc1 : st1.conn with
    | none =>
      rw [hc1] at h
      cases h
    | some mc =>
      rw [hc1] at h
      dsimp only at h
      split at h
      · cases hr2 : MCState.reconnect mc
            (some (build_url st1.cfg.tld a.num a.start a.news a.videos).hostname)
            env.newConnOutcome with
        | mk mc' rerr =>
          rw [hr2] at h
          cases rerr with
          | some e =>
            dsimp only at h
            cases h
          | none =>
            dsimp only at h
            have hp := fetchAndParse_ok_page (setConn (recordSearch st1 a) mc') env resp h
            simpa [setConn, recordSearch] using hp
      · dsimp only at h
        have hp := fetchAndParse_ok_page (recordSearch st1 a) env resp h
        simpa [recordSearch] using hp

/-- `_fetch_and_parse` can never produce the "no previous search"
error: its `SearchError`s and `ParseError`s always carry a cause, and
its pass-through errors are `ConnectionError`s. -/
theorem fetchAndParse_ne_noPrev (st : ClientState) (env : Env) :
    (fetchAndParse st env).2 ≠ Except.error noPrevExc := by
  unfold fetchAndParse noPrevExc
  split
  · split
    split
    · split
      · rename_i e he hk
        intro h
        injection h with h
        subst h
        simp [PyExc.kind] at hk
      · intro h
        injection h with h
        injection h
        simp_all
    · split
      · intro h
        injection h with h
        injection h
        simp_all
      · intro h
        cases h
  · intro h
    injection h with h
    injection h
    simp_all

end GooglerApi

namespace GooglerApi

/-! ## Claim theorems -/

/-- C10: for every `ManagedConnection` in the disconnected state,
`reconnect(newHost)` is a silent no-op: it establishes no connection,
raises no error, and leaves the stored host (indeed the whole state)
unchanged even when a new host is supplied. -/
theorem claim_C10 (mc : MCState) (host : Option String) (out : Except PyExc Unit)
    (h : mc.conn = none) :
    MCState.reconnect mc host out = (mc, none) := by
  unfold MCState.reconnect
  rw [h]

theorem claim_C10_witness :
    MCState.reconnect (MCState.mk "www.google.com" none 45 false AddrFam.unspec none)
      (some "www.google.in") (Except.ok ()) =
    (MCState.mk "www.google.com" none 45 false AddrFam.unspec none, none) :=
  claim_C10 _ _ _ rfl

/-- C8: a `SearchResponse` is truthy iff it has at least one result,
its length is the number of results, iteration and indexed access range
over the results in order, and a zero-result response is falsy with
length 0. -/
theorem claim_C8 (resp : SearchResponse) :
    (resp.bool = true ↔ resp.results ≠ []) ∧
    resp.len = resp.results.length ∧
    resp.iterItems = resp.results ∧
    (∀ i : Nat, resp.getItem i = resp.results.get? i) ∧
    (resp.results = [] → resp.bool = false ∧ resp.len = 0) := by
  refine ⟨?_, rfl, rfl, fun i => rfl, ?_⟩
  · simp [SearchResponse.bool, List.length_pos]
  · intro h
    simp [SearchResponse.bool, SearchResponse.len, h]

theorem claim_C8_witness :
    (SearchResponse.mk [] "python" "https://www.google.com/search" false none false 0).bool
        = false ∧
    (SearchResponse.mk [] "python" "https://www.google.com/search" false none false 0).len
        = 0 :=
  (claim_C8 _).2.2.2.2 rfl

/-- C6: normalizing a parser entry never fails (the function is total),
missing optional fields become empty/absent values, `None`-valued
`title`/`url`/`abstract` become empty strings, and absent sitelink
sub-fields become empty strings. -/
theorem claim_C6 (r : RawResult) :
    (r.title = none → (resultToSearchResult r).title = "") ∧
    (r.url = none → (resultToSearchResult r).url = "") ∧
    (r.abstract = none → (resultToSearchResult r).abstract = "") ∧
    (resultToSearchResult r).metadata = r.metadata ∧
    (r.sitelinks = none → (resultToSearchResult r).sitelinks = []) ∧
    (r.matches_ = none → (resultToSearchResult r).matches_ = []) ∧
    (∀ sls : List RawSitelink, r.sitelinks = some sls →
       (resultToSearchResult r).sitelinks =
         (if sls.isEmpty then [] else sls.map (fun sl =>
           SitelinkResult.mk (sl.title.getD "") (sl.url.getD "") (sl.abstract.getD "")))) ∧
    (∀ ms : List MatchEntry, r.matches_ = some ms →
       (resultToSearchResult r).matches_ = (if ms.isEmpty then [] else ms)) := by
  refine ⟨?_, ?_, ?_, rfl, ?_, ?_, ?_, ?_⟩
  · intro h; simp [resultToSearchResult, h]
  · intro h; simp [resultToSearchResult, h]
  · intro h; simp [resultToSearchResult, h]
  · intro h; simp [resultToSearchResult, h]
  · intro h; simp [resultToSearchResult, h]
  · intro sls h; simp [resultToSearchResult, h]
  · intro ms h; simp [resultToSearchResult, h]

theorem claim_C6_witness :
    (resultToSearchResult (RawResult.mk none none none none none none)).title = "" ∧
    (resultToSearchResult (RawResult.mk none none none none none none)).sitelinks = [] ∧
    (resultToSearchResult (RawResult.mk none none none none none none)).matches_ = [] :=
  ⟨(claim_C6 _).1 rfl, (claim_C6 _).2.2.2.2.1 rfl, (claim_C6 _).2.2.2.2.2.1 rfl⟩

end GooglerApi

namespace GooglerApi

/-- C2: `next_page()`/`prev_page()` on a session with no previous
search fail with the "no previous search" `SearchError`; on any
reachable session at page 0, `prev_page()` fails with `SearchError`
leaving the page index at 0; and `prev_page()` never drives a
non-negative page index below 0. -/
theorem claim_C2 :
    (∀ (cfg : ClientConfig) (env : Env),
       next_page (initState cfg) env = (initState cfg, Except.error noPrevExc) ∧
       prev_page (initState cfg) env = (initState cfg, Except.error noPrevExc)) ∧
    (∀ (st : ClientState) (env : Env), Reachable st → st.current_page = 0 →
       (∃ e : PyExc, (prev_page st env).2 = Except.error e ∧ e.kind = ExcKind.searchError) ∧
       (prev_page st env).1.current_page = 0) ∧
    (∀ (st : ClientState) (env : Env), Reachable st → 0 ≤ st.current_page →
       0 ≤ (prev_page st env).1.current_page) := by
  refine ⟨?_, ?_, ?_⟩
  · intro cfg env
    exact ⟨rfl, rfl⟩
  · intro st env hr hz
    cases hg : st.google_url with
    | none =>
      constructor
      · refine ⟨noPrevExc, ?_, rfl⟩
        simp only [prev_page, hg]
      · simp only [prev_page, hg]
        exact hz
    | some u =>
      have hpage := reachable_sync hr u hg
      rw [hz] at hpage
      have hpe : u.prev_page =
          Except.error (PyExc.mk ExcKind.valueError "Nonnegative page number expected" none) := by
        unfold GUrl.prev_page
        rw [if_pos (by omega)]
      constructor
      · refine ⟨PyExc.mk ExcKind.searchError "Already at the first page."
          (some (PyExc.mk ExcKind.valueError "Nonnegative page number expected" none)),
          ?_, rfl⟩
        simp only [prev_page, hg, hpe]
      · simp only [prev_page, hg, hpe]
        exact hz
  · intro st env hr hnn
    rcases prev_page_fst_cases st env with heq | ⟨u0, hg, hpos, h1, h2⟩
    · rw [heq]; exact hnn
    · rw [h2]
      have := reachable_sync hr u0 hg
      omega

theorem claim_C2_witness :
    (∃ e : PyExc, (prev_page (initState sampleCfg) sampleEnv).2 = Except.error e ∧
       e.kind = ExcKind.searchError) ∧
    (prev_page (initState sampleCfg) sampleEnv).1.current_page = 0 :=
  claim_C2.2.1 (initState sampleCfg) sampleEnv (Reachable.init sampleCfg) rfl

/-- C3: every `search(query, num, start, ...)` call records
`start // num` (floor division) as the session page index when
`num > 0`, and 0 when `num = 0` (indeed whenever `num ≤ 0`); a
successful call reports the same value in the response. -/
theorem claim_C3 (st : ClientState) (a : SearchArgs) (env : Env)
    (hconn : (clientConnect st env).2.2 = none) :
    (search st a env).1.current_page =
      (if a.num > 0 then Int.fdiv a.start a.num else 0) ∧
    (∀ resp : SearchResponse, (search st a env).2.2 = Except.ok resp →
       resp.page = (if a.num > 0 then Int.fdiv a.start a.num else 0)) := by
  refine ⟨(search_fst_of_connect_ok st a env hconn).2.1, ?_⟩
  intro resp h
  exact search_ok_page st a env resp h

theorem claim_C3_witness :
    (search (initState sampleCfg) sampleArgs sampleEnv).1.current_page = 0 := by
  have h := (claim_C3 (initState sampleCfg) sampleArgs sampleEnv rfl).1
  rw [h]
  decide

end GooglerApi

namespace GooglerApi

/-- C1: in a fetch/parse cycle, a `ConnectionError` arising from the
fetch step propagates unchanged; any other fetch-step failure is
wrapped as `SearchError` with the original failure as its cause; and
any parse failure is wrapped as `ParseError` with the original failure
as its cause. -/
theorem claim_C1 (st : ClientState) (env : Env) (mc : MCState) (u : GUrl)
    (hc : st.conn = some mc) (hg : st.google_url = some u) :
    (∀ e : PyExc,
       (MCState.fetch_page mc env.connectOutcome env.fetchOutcome).2 = Except.error e →
       e.kind = ExcKind.connectionError →
       (fetchAndParse st env).2 = Except.error e) ∧
    (∀ e : PyExc,
       (MCState.fetch_page mc env.connectOutcome env.fetchOutcome).2 = Except.error e →
       e.kind ≠ ExcKind.connectionError →
       (fetchAndParse st env).2 = Except.error
         (PyExc.mk ExcKind.searchError ("Search request failed: " ++ e.msg) (some e))) ∧
    (∀ (html : String) (e : PyExc),
       (MCState.fetch_page mc env.connectOutcome env.fetchOutcome).2 = Except.ok html →
       env.parseOutcome html = Except.error e →
       (fetchAndParse st env).2 = Except.error
         (PyExc.mk ExcKind.parseError ("Failed to parse search results: " ++ e.msg) (some e))) := by
  refine ⟨?_, ?_, ?_⟩
  · intro e he hk
    unfold fetchAndParse
    rw [hc, hg]
    dsimp only
    cases hf : MCState.fetch_page mc env.connectOutcome env.fetchOutcome with
    | mk mc1 fres =>
      rw [hf] at he
      dsimp only at he
      subst he
      dsimp only
      rw [if_pos hk]
  · intro e he hk
    unfold fetchAndParse
    rw [hc, hg]
    dsimp only
    cases hf : MCState.fetch_page mc env.connectOutcome env.fetchOutcome with
    | mk mc1 fres =>
      rw [hf] at he
      dsimp only at he
      subst he
      dsimp only
      rw [if_neg hk]
  · intro html e hfetch hparse
    unfold fetchAndParse
    rw [hc, hg]
    dsimp only
    cases hf : MCState.fetch_page mc env.connectOutcome env.fetchOutcome with
    | mk mc1 fres =>
      rw [hf] at hfetch
      dsimp only at hfetch
      subst hfetch
      dsimp only
      rw [hparse]

theorem claim_C1_witness :
    (fetchAndParse sampleStConnected sampleEnvFetchFail).2 =
      Except.error (PyExc.mk ExcKind.searchError ("Search request failed: " ++ "boom")
        (some (PyExc.mk ExcKind.otherError "boom" none))) :=
  (claim_C1 sampleStConnected sampleEnvFetchFail sampleMC (build_url none 10 0 false false)
      rfl rfl).2.1
    (PyExc.mk ExcKind.otherError "boom" none) rfl (by decide)

/-- C5: the resolved connection host is `www.google.<tld>` when a
(truthy) countryTLD is configured and the fixed `www.google.com`
otherwise; and when a `search()` resolves a URL whose host differs from
the currently connected host, the session emits exactly one reconnect
on the existing manager and constructs no new manager. -/
theorem claim_C5 :
    (∀ (cfg : ClientConfig) (t : String), cfg.tld = some t → t ≠ "" →
       hostnameFor cfg = "www.google." ++ t) ∧
    (∀ cfg : ClientConfig, cfg.tld = none → hostnameFor cfg = "www.google.com") ∧
    (∀ (st : ClientState) (a : SearchArgs) (env : Env) (mc : MCState),
       st.conn = some mc → mc.is_connected = true →
       mc.host ≠ (build_url st.cfg.tld a.num a.start a.news a.videos).hostname →
       (search st a env).2.1 =
         [Event.reconnectEv
           (some (build_url st.cfg.tld a.num a.start a.news a.videos).hostname)]) := by
  refine ⟨?_, ?_, ?_⟩
  · intro cfg t ht hne
    unfold hostnameFor
    rw [ht]
    simp [truthyStr, hne]
  · intro cfg ht
    unfold hostnameFor
    rw [ht]
    simp [truthyStr]
  · intro st a env mc hc hic hh
    unfold search
    rw [clientConnect_connected st env mc hc hic]
    dsimp only
    rw [hc]
    dsimp only
    rw [if_pos hh]
    cases hr2 : MCState.reconnect mc
        (some (build_url st.cfg.tld a.num a.start a.news a.videos).hostname)
        env.newConnOutcome with
    | mk mc' rerr =>
      cases rerr with
      | some e => rfl
      | none =>
        cases hf : fetchAndParse (setConn (recordSearch st a) mc') env with
        | mk st5 res => rfl

theorem claim_C5_witness :
    hostnameFor sampleCfgIn = "www.google.in" ∧
    (search sampleStMismatch sampleArgs sampleEnv).2.1 =
      [Event.reconnectEv (some "www.google.in")] := by
  constructor
  · exact claim_C5.1 sampleCfgIn "in" rfl (by decide)
  · have h := claim_C5.2.2 sampleStMismatch sampleArgs sampleEnv sampleMC rfl rfl (by decide)
    exact h

end GooglerApi

namespace GooglerApi

/-- C7: scoped use of a session connects on entry; exit closes the
connection unconditionally — also when the body raised — after which
the session is disconnected; the exit handler returns `False` so the
in-flight exception is never suppressed (the scope's result is exactly
the body's result); and `close()` on an already-closed session is a
no-op. -/
theorem claim_C7 {α : Type} (cfg : ClientConfig) (env : Env)
    (body : ClientState → ClientState × Except PyExc α)
    (hconn : (clientConnect (initState cfg) env).2.2 = none) :
    (∃ mc : MCState, (clientEnter (initState cfg) env).1.conn = some mc ∧
       mc.is_connected = true) ∧
    (withClient cfg env body).1.conn = none ∧
    (withClient cfg env body).2 = (body (clientEnter (initState cfg) env).1).2 ∧
    (∀ st : ClientState, clientExit st = (clientClose st, false)) ∧
    (∀ st : ClientState, st.conn = none → clientClose st = st) := by
  refine ⟨clientConnect_ok_connected _ env hconn, ?_, ?_, fun st => rfl, ?_⟩
  · unfold withClient clientEnter
    cases hcc : clientConnect (initState cfg) env with
    | mk st1 rest =>
      cases rest with
      | mk evs err =>
        cases err with
        | some e =>
          rw [hcc] at hconn
          cases hconn
        | none =>
          dsimp only
          cases hb : body st1 with
          | mk st2 res =>
            dsimp only [clientExit]
            exact clientClose_conn st2
  · unfold withClient clientEnter
    cases hcc : clientConnect (initState cfg) env with
    | mk st1 rest =>
      cases rest with
      | mk evs err =>
        cases err with
        | some e =>
          rw [hcc] at hconn
          cases hconn
        | none =>
          dsimp only
          cases hb : body st1 with
          | mk st2 res =>
            dsimp only [clientExit]
            cases res with
            | error e => rfl
            | ok v => rfl
  · intro st h
    unfold clientClose
    rw [h]

theorem claim_C7_witness :
    (withClient sampleCfg sampleEnv
        (fun st => (st, (Except.error (PyExc.mk ExcKind.searchError "body failed" none) :
          Except PyExc Unit)))).1.conn = none ∧
    (withClient sampleCfg sampleEnv
        (fun st => (st, (Except.error (PyExc.mk ExcKind.searchError "body failed" none) :
          Except PyExc Unit)))).2
      = Except.error (PyExc.mk ExcKind.searchError "body failed" none) :=
  ⟨(claim_C7 sampleCfg sampleEnv _ rfl).2.1,
   (claim_C7 sampleCfg sampleEnv _ rfl).2.2.1⟩

end GooglerApi

namespace GooglerApi

/-- C9: `search()` records the pagination state before fetching, so a
call whose fetch or parse step fails still replaces the stored query,
URL and page index; a subsequent `next_page()` does not raise the
"no previous search" error but re-runs the fetch cycle from the failed
search's URL advanced by one page. -/
theorem claim_C9 (st : ClientState) (a : SearchArgs) (env env2 : Env)
    (hconn : (clientConnect st env).2.2 = none)
    (_hfail : ∃ e : PyExc, (search st a env).2.2 = Except.error e) :
    (search st a env).1.last_query = some a.query ∧
    (search st a env).1.google_url =
      some (build_url (clientConnect st env).1.cfg.tld a.num a.start a.news a.videos) ∧
    (search st a env).1.current_page =
      (if a.num > 0 then Int.fdiv a.start a.num else 0) ∧
    next_page (search st a env).1 env2 =
      fetchAndParse
        (ClientState.mk (search st a env).1.cfg (search st a env).1.conn
          (some (GUrl.next_page
            (build_url (clientConnect st env).1.cfg.tld a.num a.start a.news a.videos)))
          ((search st a env).1.current_page + 1)
          (search st a env).1.last_query (search st a env).1.last_kwargs) env2 ∧
    (next_page (search st a env).1 env2).2 ≠ Except.error noPrevExc := by
  obtain ⟨hg, hp, hq⟩ := search_fst_of_connect_ok st a env hconn
  refine ⟨hq, hg, hp, ?_, ?_⟩
  · unfold next_page
    rw [hg]
  · unfold next_page
    rw [hg]
    dsimp only
    exact fetchAndParse_ne_noPrev _ env2

theorem claim_C9_witness :
    (search (initState sampleCfg) sampleArgs sampleEnvFetchFail).1.last_query
        = some "python" ∧
    (next_page (search (initState sampleCfg) sampleArgs sampleEnvFetchFail).1 sampleEnv).2
        ≠ Except.error noPrevExc := by
  have h := claim_C9 (initState sampleCfg) sampleArgs sampleEnvFetchFail sampleEnv rfl
    ⟨PyExc.mk ExcKind.searchError ("Search request failed: " ++ "boom")
       (some (PyExc.mk ExcKind.otherError "boom" none)), rfl⟩
  exact ⟨h.1, h.2.2.2.2⟩

end GooglerApi

namespace GooglerApi

/-! ## Round-trip lemmas for the JSON reader -/

theorem hexVal_hexDigit : ∀ k : Nat, k < 16 → hexVal (hexDigit k) = some k := by decide

/-- Reading one escaped character undoes the escaping. -/
theorem pStrAux_esc_step (c : Char) (acc tail : List Char) :
    pStrAux acc (escChar c ++ tail) = pStrAux (c :: acc) tail := by
  by_cases h1 : c = '"'
  · subst h1
    rw [show escChar '"' = ['\\', '"'] from by decide]
    rw [pStrAux.eq_def]
    simp
  · by_cases h2 : c = '\\'
    · subst h2
      rw [show escChar '\\' = ['\\', '\\'] from by decide]
      rw [pStrAux.eq_def]
      simp
    · by_cases h3 : c = '\n'
      · subst h3
        rw [show escChar '\n' = ['\\', 'n'] from by decide]
        rw [pStrAux.eq_def]
        simp
      · by_cases h4 : c = '\t'
        · subst h4
          rw [show escChar '\t' = ['\\', 't'] from by decide]
          rw [pStrAux.eq_def]
          simp
        · by_cases h5 : c = '\r'
          · subst h5
            rw [show escChar '\r' = ['\\', 'r'] from by decide]
            rw [pStrAux.eq_def]
            simp
          · by_cases h6 : c.toNat = 8
            · have hc : escChar c = ['\\', 'b'] := by
                simp [escChar, h1, h2, h3, h4, h5, h6]
              rw [hc]
              rw [pStrAux.eq_def]
              simp
              rw [show Char.ofNat 8 = c from by rw [← h6]; exact Char.ofNat_toNat c]
            · by_cases h7 : c.toNat = 12
              · have hc : escChar c = ['\\', 'f'] := by
                  simp [escChar, h1, h2, h3, h4, h5, h6, h7]
                rw [hc]
                rw [pStrAux.eq_def]
                simp
                rw [show Char.ofNat 12 = c from by rw [← h7]; exact Char.ofNat_toNat c]
              · by_cases h8 : c.toNat < 32
                · have hc : escChar c =
                      ['\\', 'u', '0', '0', hexDigit (c.toNat / 16), hexDigit (c.toNat % 16)] := by
                    simp [escChar, h1, h2, h3, h4, h5, h6, h7, h8]
                  rw [hc]
                  rw [pStrAux.eq_def]
                  simp [show hexVal '0' = some 0 from by decide,
                    hexVal_hexDigit (c.toNat / 16) (by omega),
                    hexVal_hexDigit (c.toNat % 16) (by omega)]
                  rw [show Char.ofNat (c.toNat / 16 * 16 + c.toNat % 16) = c from by
                    rw [show c.toNat / 16 * 16 + c.toNat % 16 = c.toNat from by omega]
                    exact Char.ofNat_toNat c]
                · have hc : escChar c = [c] := by
                    simp [escChar, h1, h2, h3, h4, h5, h6, h7, h8]
                  rw [hc]
                  rw [pStrAux.eq_def]
                  simp [h1, h2]

/-- Reading an escaped character sequence up to an unescaped closing
quote recovers the original characters. -/
theorem pStrAux_flatMap (l : List Char) (acc rest : List Char) :
    pStrAux acc (l.flatMap escChar ++ '"' :: rest) =
      some (String.mk (acc.reverse ++ l), rest) := by
  induction l generalizing acc with
  | nil =>
    rw [List.flatMap_nil, List.nil_append, pStrAux.eq_def]
    simp
  | cons c l ih =>
    rw [List.flatMap_cons, List.append_assoc, pStrAux_esc_step, ih]
    simp

/-- Reading a serialized string literal recovers the string. -/
theorem pString_strLit (s : String) (rest : List Char) :
    pString ((strLit s).data ++ rest) = some (s, rest) := by
  unfold pString strLit
  simp only [List.cons_append]
  rw [skipWs.eq_def]
  dsimp only
  rw [if_neg (by decide : ¬('"' = ' ' ∨ '"' = '\n' ∨ '"' = '\t' ∨ '"' = '\r'))]
  dsimp only
  rw [if_pos rfl]
  simp only [List.append_assoc, List.singleton_append]
  rw [pStrAux_flatMap]
  simp

end GooglerApi

namespace GooglerApi

theorem skipWs_ws_cons (c : Char) (l : List Char)
    (h : c = ' ' ∨ c = '\n' ∨ c = '\t' ∨ c = '\r') : skipWs (c :: l) = skipWs l := by
  rw [skipWs.eq_def]
  dsimp only
  rw [if_pos h]

theorem skipWs_not_ws (c : Char) (l : List Char)
    (h : ¬(c = ' ' ∨ c = '\n' ∨ c = '\t' ∨ c = '\r')) : skipWs (c :: l) = c :: l := by
  rw [skipWs.eq_def]
  dsimp only
  rw [if_neg h]

theorem pString_ws_cons (c : Char) (cs : List Char)
    (h : c = ' ' ∨ c = '\n' ∨ c = '\t' ∨ c = '\r') : pString (c :: cs) = pString cs := by
  unfold pString
  rw [skipWs_ws_cons c cs h]

theorem pMembers_ws_cons (fuel : Nat) (c : Char) (cs : List Char)
    (h : c = ' ' ∨ c = '\n' ∨ c = '\t' ∨ c = '\r') :
    pMembers fuel (c :: cs) = pMembers fuel cs := by
  cases fuel with
  | zero => rfl
  | succ fuel =>
    conv_lhs => rw [pMembers.eq_def]
    conv_rhs => rw [pMembers.eq_def]
    dsimp only
    rw [pString_ws_cons c cs h]

theorem pObj_ws_cons (fuel : Nat) (c : Char) (cs : List Char)
    (h : c = ' ' ∨ c = '\n' ∨ c = '\t' ∨ c = '\r') :
    pObj fuel (c :: cs) = pObj fuel cs := by
  unfold pObj
  rw [skipWs_ws_cons c cs h]

theorem pObjs_ws_cons (fuel : Nat) (c : Char) (cs : List Char)
    (h : c = ' ' ∨ c = '\n' ∨ c = '\t' ∨ c = '\r') :
    pObjs fuel (c :: cs) = pObjs fuel cs := by
  cases fuel with
  | zero => rfl
  | succ fuel =>
    conv_lhs => rw [pObjs.eq_def]
    conv_rhs => rw [pObjs.eq_def]
    dsimp only
    rw [pObj_ws_cons fuel c cs h]

/-- One `"key": "value",` member followed by more members. -/
theorem pMembers_step_cons (fuel : Nat) (k v : String) (next : List Char) :
    pMembers (fuel + 1) (memberData k v ++ ',' :: next) =
      (match pMembers fuel next with
       | none => none
       | some (kvs, r) => some ((k, v) :: kvs, r)) := by
  rw [pMembers.eq_def]
  simp only [memberData, List.append_assoc, List.cons_append]
  rw [pString_strLit]
  dsimp only
  rw [skipWs_not_ws ':' _ (by decide)]
  dsimp only
  rw [if_pos rfl]
  rw [pString_ws_cons ' ' _ (by simp)]
  rw [pString_strLit]
  dsimp only
  rw [skipWs_not_ws ',' _ (by decide)]
  dsimp only
  rw [if_pos rfl]

/-- The final `"key": "value"` member, terminated by the closing brace
on its own (two-space indented) line. -/
theorem pMembers_step_last (fuel : Nat) (k v : String) (rest : List Char) :
    pMembers (fuel + 1)
      (memberData k v ++ '\n' :: ' ' :: ' ' :: Char.ofNat 125 :: rest) =
      some ([(k, v)], rest) := by
  rw [pMembers.eq_def]
  simp only [memberData, List.append_assoc, List.cons_append]
  rw [pString_strLit]
  dsimp only
  rw [skipWs_not_ws ':' _ (by decide)]
  dsimp only
  rw [if_pos rfl]
  rw [pString_ws_cons ' ' _ (by simp)]
  rw [pString_strLit]
  dsimp only
  rw [skipWs_ws_cons '\n' _ (by simp), skipWs_ws_cons ' ' _ (by simp),
    skipWs_ws_cons ' ' _ (by simp), skipWs_not_ws (Char.ofNat 125) _ (by decide)]
  dsimp only
  rw [if_neg (by decide), if_pos rfl]

end GooglerApi

namespace GooglerApi

theorem strLit_data (s : String) :
    (strLit s).data = '"' :: (s.data.flatMap escChar ++ ['"']) := rfl

theorem pad0_data : (pad 0).data = [] := rfl

theorem pad2_data : (pad 2).data = [' ', ' '] := rfl

theorem pad4_data : (pad 4).data = [' ', ' ', ' ', ' '] := rfl

theorem data_objOpen : ("\x7b\n" : String).data = [Char.ofNat 123, '\n'] := rfl

theorem data_objClose : ("\x7d" : String).data = [Char.ofNat 125] := rfl

theorem data_commaNl : (",\n" : String).data = [',', '\n'] := rfl

theorem data_colonSp : (": " : String).data = [':', ' '] := rfl

theorem data_nl : ("\n" : String).data = ['\n'] := rfl

theorem data_arrOpen : ("[\n" : String).data = ['[', '\n'] := rfl

theorem data_arrClose : ("]" : String).data = [']'] := rfl

/-- The serialized object for one result without optional fields, in
character-level normal form. -/
theorem renderNoOpt_data (r : SearchResult) (tail : List Char) :
    (renderNoOpt r).data ++ tail =
      ' ' :: ' ' :: Char.ofNat 123 :: '\n' :: ' ' :: ' ' :: ' ' :: ' ' ::
      (memberData "abstract" r.abstract ++ ',' :: '\n' :: ' ' :: ' ' :: ' ' :: ' ' ::
        (memberData "title" r.title ++ ',' :: '\n' :: ' ' :: ' ' :: ' ' :: ' ' ::
          (memberData "url" r.url ++ '\n' :: ' ' :: ' ' :: Char.ofNat 125 :: tail))) := by
  simp only [renderNoOpt, memberData, joinSep, String.data_append, pad2_data, pad4_data,
    data_objOpen, data_commaNl, data_colonSp, data_nl, data_objClose,
    List.append_assoc, List.cons_append, List.nil_append, List.append_nil]

end GooglerApi

namespace GooglerApi

/-- Reading back the three members of a no-optional-fields object. -/
theorem pMembers_three (fuel : Nat) (a t u : String) (rest : List Char) :
    pMembers (fuel + 3)
      (memberData "abstract" a ++ ',' :: '\n' :: ' ' :: ' ' :: ' ' :: ' ' ::
        (memberData "title" t ++ ',' :: '\n' :: ' ' :: ' ' :: ' ' :: ' ' ::
          (memberData "url" u ++ '\n' :: ' ' :: ' ' :: Char.ofNat 125 :: rest))) =
      some ([("abstract", a), ("title", t), ("url", u)], rest) := by
  rw [show fuel + 3 = (fuel + 2) + 1 from rfl, pMembers_step_cons]
  rw [pMembers_ws_cons _ '\n' _ (by simp), pMembers_ws_cons _ ' ' _ (by simp),
      pMembers_ws_cons _ ' ' _ (by simp), pMembers_ws_cons _ ' ' _ (by simp),
      pMembers_ws_cons _ ' ' _ (by simp)]
  rw [show fuel + 2 = (fuel + 1) + 1 from rfl, pMembers_step_cons]
  rw [pMembers_ws_cons _ '\n' _ (by simp), pMembers_ws_cons _ ' ' _ (by simp),
      pMembers_ws_cons _ ' ' _ (by simp), pMembers_ws_cons _ ' ' _ (by simp),
      pMembers_ws_cons _ ' ' _ (by simp)]
  rw [pMembers_step_last]

/-- Reading back one serialized result object. -/
theorem pObj_render (fuel : Nat) (r : SearchResult) (tail : List Char) :
    pObj (fuel + 3) ((renderNoOpt r).data ++ tail) =
      some ([("abstract", r.abstract), ("title", r.title), ("url", r.url)], tail) := by
  rw [renderNoOpt_data]
  unfold pObj
  rw [skipWs_ws_cons ' ' _ (by simp), skipWs_ws_cons ' ' _ (by simp),
      skipWs_not_ws (Char.ofNat 123) _ (by decide)]
  dsimp only
  rw [if_pos rfl]
  rw [skipWs_ws_cons '\n' _ (by simp), skipWs_ws_cons ' ' _ (by simp),
      skipWs_ws_cons ' ' _ (by simp), skipWs_ws_cons ' ' _ (by simp),
      skipWs_ws_cons ' ' _ (by simp)]
  have h3 := pMembers_three fuel r.abstract r.title r.url tail
  simp only [memberData, strLit_data, List.cons_append, List.append_assoc] at h3 ⊢
  rw [skipWs_not_ws '"' _ (by decide)]
  dsimp only
  rw [if_neg (by decide)]
  exact h3

end GooglerApi

namespace GooglerApi

theorem joinSep_cons_eq (x : String) (xs : List String) (sep : String) :
    joinSep (x :: xs) sep =
      x ++ (match xs with | [] => "" | _ :: _ => sep ++ joinSep xs sep) := by
  cases xs with
  | nil => simp [joinSep]
  | cons y ys => rw [joinSep]; exact String.append_assoc x sep _

/-- Reading back a non-empty serialized result array body. -/
theorem pObjs_chain (rs : List SearchResult) :
    ∀ (fuel : Nat) (rest : List Char), rs ≠ [] → rs.length + 3 ≤ fuel →
    pObjs fuel ((joinSep (rs.map renderNoOpt) ",\n").data ++ '\n' :: ']' :: rest) =
      some (rs.map (fun r =>
        [("abstract", r.abstract), ("title", r.title), ("url", r.url)]), rest) := by
  induction rs with
  | nil => intro fuel rest hne _; exact absurd rfl hne
  | cons r rs ih =>
    intro fuel rest _ hf
    cases rs with
    | nil =>
      obtain ⟨g, rfl⟩ : ∃ g, fuel = (g + 3) + 1 := ⟨fuel - 4, by simp at hf; omega⟩
      rw [pObjs.eq_def]
      simp only [List.map_cons, List.map_nil, joinSep]
      rw [pObj_render g r ('\n' :: ']' :: rest)]
      dsimp only
      rw [skipWs_ws_cons '\n' _ (by simp), skipWs_not_ws ']' _ (by decide)]
      dsimp only
      rw [if_neg (by decide), if_pos rfl]
    | cons r2 rs2 =>
      obtain ⟨g, rfl⟩ : ∃ g, fuel = (g + 3) + 1 := ⟨fuel - 4, by simp at hf; omega⟩
      rw [pObjs.eq_def]
      simp only [List.map_cons]
      rw [joinSep_cons_eq]
      simp only [String.data_append, data_commaNl, List.append_assoc, List.cons_append]
      rw [pObj_render g r]
      dsimp only
      rw [skipWs_not_ws ',' _ (by decide)]
      dsimp only
      rw [if_pos rfl]
      rw [pObjs_ws_cons _ '\n' _ (by simp)]
      simp only [List.nil_append]
      have ihr := ih (g + 3) rest (by simp) (by simp at hf ⊢; omega)
      simp only [List.map_cons] at ihr
      rw [ihr]

end GooglerApi

namespace GooglerApi

theorem joinSep_length_ge (xs : List String) (sep : String) :
    (∀ x ∈ xs, 1 ≤ x.length) → xs.length ≤ (joinSep xs sep).length := by
  induction xs with
  | nil => intro _; simp [joinSep]
  | cons x xs ih =>
    intro h
    rw [joinSep_cons_eq, String.length_append]
    have hx := h x (by simp)
    cases xs with
    | nil => simpa using hx
    | cons y ys =>
      have h2 := ih (fun z hz => h z (by simp [hz]))
      rw [String.length_append]
      simp only [List.length_cons] at h2 ⊢
      omega

theorem renderNoOpt_length (r : SearchResult) : 1 ≤ (renderNoOpt r).length := by
  rw [renderNoOpt, String.length_append]
  have h2 : (pad 2).length = 2 := rfl
  omega

/-- Reading back the whole serialized array. -/
theorem parse_expected (rs : List SearchResult) :
    parseResults (expectedJson rs) =
      some (rs.map (fun r =>
        [("abstract", r.abstract), ("title", r.title), ("url", r.url)])) := by
  cases rs with
  | nil => rfl
  | cons r rs' =>
    unfold parseResults
    have h1 : (expectedJson (r :: rs')).data =
        '[' :: '\n' ::
          ((joinSep (List.map renderNoOpt (r :: rs')) ",\n").data ++ '\n' :: ']' :: []) := by
      unfold expectedJson
      simp only [String.data_append, data_arrOpen, data_nl, pad0_data, data_arrClose,
        List.append_assoc, List.cons_append, List.nil_append, List.append_nil]
    rw [h1]
    rw [skipWs_not_ws '[' _ (by decide)]
    dsimp only
    rw [if_pos rfl]
    obtain ⟨tl, hsk⟩ : ∃ tl,
        skipWs ('\n' ::
          ((joinSep (List.map renderNoOpt (r :: rs')) ",\n").data ++ '\n' :: ']' :: [])) =
          Char.ofNat 123 :: tl := by
      rw [List.map_cons, joinSep_cons_eq]
      simp only [String.data_append, List.append_assoc]
      rw [renderNoOpt_data]
      rw [skipWs_ws_cons '\n' _ (by simp), skipWs_ws_cons ' ' _ (by simp),
          skipWs_ws_cons ' ' _ (by simp), skipWs_not_ws (Char.ofNat 123) _ (by decide)]
      exact ⟨_, rfl⟩
    rw [hsk]
    dsimp only
    rw [if_neg (by decide)]
    rw [pObjs_ws_cons _ '\n' _ (by simp)]
    have hJ : (r :: rs').length ≤
        (joinSep (List.map renderNoOpt (r :: rs')) ",\n").data.length := by
      have hg := joinSep_length_ge (List.map renderNoOpt (r :: rs')) ",\n"
        (fun x hx => by
          obtain ⟨r', _, rfl⟩ := List.mem_map.1 hx
          exact renderNoOpt_length r')
      simpa [List.length_map] using hg
    have hfuel : (r :: rs').length + 3 ≤
        ('[' :: '\n' ::
          ((joinSep (List.map renderNoOpt (r :: rs')) ",\n").data ++ '\n' :: ']' :: [])).length
          + 1 := by
      simp only [List.length_cons, List.length_append]
      simp only [List.length_cons] at hJ ⊢
      omega
    rw [pObjs_chain (r :: rs')
      (('[' :: '\n' ::
        ((joinSep (List.map renderNoOpt (r :: rs')) ",\n").data ++ '\n' :: ']' :: [])).length
        + 1) [] (by simp) hfuel]
    dsimp only
    rw [if_pos (show skipWs ([] : List Char) = [] from rfl)]

end GooglerApi

namespace GooglerApi

theorem sortPairs_three (x y z : String) :
    sortPairs [("title", x), ("url", y), ("abstract", z)] =
      [("abstract", z), ("title", x), ("url", y)] := by
  simp only [sortPairs, insertPair]
  rw [show lexLe ['t', 'i', 't', 'l', 'e'] ['a', 'b', 's', 't', 'r', 'a', 'c', 't']
        = false from by decide,
      show lexLe ['t', 'i', 't', 'l', 'e'] ['u', 'r', 'l'] = true from by decide]
  simp

/-- Serializing one result carrying no optional fields yields exactly
the expected two-space-indented, key-sorted object. -/
theorem dumps_noopt (r : SearchResult) (h1 : r.metadata = none) (h2 : r.sitelinks = [])
    (h3 : r.matches_ = []) :
    pad 2 ++ dumps (Json.obj r.to_dict) 2 = renderNoOpt r := by
  have hd : r.to_dict = [("title", Json.str r.title), ("url", Json.str r.url),
      ("abstract", Json.str r.abstract)] := by
    simp [SearchResult.to_dict, h1, h2, h3, truthyStr]
  rw [hd]
  rw [dumps.eq_def]
  dsimp only
  rw [dumpsPairs.eq_def]
  dsimp only
  rw [dumpsPairs.eq_def]
  dsimp only
  rw [dumpsPairs.eq_def]
  dsimp only
  rw [dumpsPairs.eq_def]
  dsimp only
  rw [dumps.eq_def]
  dsimp only
  rw [dumps.eq_def]
  dsimp only
  rw [dumps.eq_def]
  dsimp only
  rw [sortPairs_three]
  simp only [List.map_cons, List.map_nil]
  rw [renderNoOpt]

theorem dumpsList_noopt (rs : List SearchResult)
    (h : ∀ r ∈ rs, r.metadata = none ∧ r.sitelinks = [] ∧ r.matches_ = []) :
    dumpsList (rs.map (fun r => Json.obj r.to_dict)) 2 = rs.map renderNoOpt := by
  induction rs with
  | nil => rfl
  | cons r rs ih =>
    simp only [List.map_cons]
    rw [dumpsList.eq_def]
    dsimp only
    obtain ⟨h1, h2, h3⟩ := h r (by simp)
    rw [dumps_noopt r h1 h2 h3]
    rw [ih (fun r hr => h r (by simp [hr]))]

/-- `to_json` of a response without optional fields produces exactly
the expected text. -/
theorem to_json_noopt (rs : List SearchResult) (q u : String) (ac : Bool)
    (srf : Option String) (fl : Bool) (pg : Int)
    (hopt : ∀ r ∈ rs, r.metadata = none ∧ r.sitelinks = [] ∧ r.matches_ = []) :
    (SearchResponse.mk rs q u ac srf fl pg).to_json = expectedJson rs := by
  unfold SearchResponse.to_json SearchResponse.to_dicts
  simp only [List.map_map, Function.comp_def]
  cases rs with
  | nil => rfl
  | cons r rs' =>
    simp only [List.map_cons]
    rw [dumps.eq_def]
    dsimp only
    rw [show (0 : Nat) + 2 = 2 from rfl]
    have hl := dumpsList_noopt (r :: rs') hopt
    simp only [List.map_cons] at hl
    rw [hl]
    rw [expectedJson]
    simp only [List.map_cons]

end GooglerApi

namespace GooglerApi

/-- C4: for a response of N results none of which has metadata,
sitelinks, or matches set, `to_json` emits exactly the expected
two-space-indented text with alphabetically sorted keys, and that text
parses back into exactly N objects each containing exactly the keys
abstract/title/url; the optional keys metadata/sitelinks/matches appear
in a serialized result exactly when truthy/non-empty; and non-ASCII
characters are emitted literally, never escaped. -/
theorem claim_C4 (rs : List SearchResult) (q u : String) (ac : Bool)
    (srf : Option String) (fl : Bool) (pg : Int)
    (hopt : ∀ r ∈ rs, r.metadata = none ∧ r.sitelinks = [] ∧ r.matches_ = []) :
    (SearchResponse.mk rs q u ac srf fl pg).to_json = expectedJson rs ∧
    parseResults (SearchResponse.mk rs q u ac srf fl pg).to_json =
      some (rs.map (fun r =>
        [("abstract", r.abstract), ("title", r.title), ("url", r.url)])) ∧
    (rs.map (fun r =>
      [("abstract", r.abstract), ("title", r.title), ("url", r.url)])).length = rs.length ∧
    (∀ r : SearchResult,
       (("metadata" ∈ (SearchResult.to_dict r).map Prod.fst) ↔ truthyStr r.metadata = true) ∧
       (("sitelinks" ∈ (SearchResult.to_dict r).map Prod.fst) ↔ r.sitelinks ≠ []) ∧
       (("matches" ∈ (SearchResult.to_dict r).map Prod.fst) ↔ r.matches_ ≠ [])) ∧
    (∀ c : Char, 128 ≤ c.toNat → escChar c = [c]) := by
  refine ⟨to_json_noopt rs q u ac srf fl pg hopt, ?_, by simp, ?_, ?_⟩
  · rw [to_json_noopt rs q u ac srf fl pg hopt]
    exact parse_expected rs
  · intro r
    refine ⟨?_, ?_, ?_⟩
    · by_cases hm : truthyStr r.metadata = true <;>
        simp [SearchResult.to_dict, hm]
    · by_cases hs : r.sitelinks = []
      · simp [SearchResult.to_dict, hs]
      · have he : r.sitelinks.isEmpty = false := by
          simpa [List.isEmpty_iff] using hs
        simp [SearchResult.to_dict, he, hs]
    · by_cases hs : r.matches_ = []
      · simp [SearchResult.to_dict, hs]
      · have he : r.matches_.isEmpty = false := by
          simpa [List.isEmpty_iff] using hs
        simp [SearchResult.to_dict, he, hs]
  · intro c hc
    have h1 : ¬c = '"' := by intro h; subst h; simp at hc
    have h2 : ¬c = '\\' := by intro h; subst h; simp at hc
    have h3 : ¬c = '\n' := by intro h; subst h; simp at hc
    have h4 : ¬c = '\t' := by intro h; subst h; simp at hc
    have h5 : ¬c = '\r' := by intro h; subst h; simp at hc
    have h6 : ¬c.toNat = 8 := by omega
    have h7 : ¬c.toNat = 12 := by omega
    have h8 : ¬c.toNat < 32 := by omega
    simp [escChar, h1, h2, h3, h4, h5, h6, h7, h8]

theorem claim_C4_witness :
    parseResults (SearchResponse.mk
        [SearchResult.mk "héllo" "https://a" "A" none [] [],
         SearchResult.mk "B" "https://b" "™" none [] []]
        "q" "u" false none false 0).to_json =
      some [[("abstract", "A"), ("title", "héllo"), ("url", "https://a")],
            [("abstract", "™"), ("title", "B"), ("url", "https://b")]] := by
  have h := (claim_C4
      [SearchResult.mk "héllo" "https://a" "A" none [] [],
       SearchResult.mk "B" "https://b" "™" none [] []]
      "q" "u" false none false 0 (by simp)).2.1
  simpa using h

end GooglerApi
